import Mathlib

/-!
Verification of the generation/refinement orchestration workflow of the
Mathematical-Fun-Game repository: a shallow embedding of the Gemini service
module (src/unnamed/part_000: bringToLife, refineApp, analyzeCode and their
response cleanup) and of the preview component logic
(src/components/LivePreview.tsx: analysis memoization, creation-change reset,
JSON export), together with theorems settling the specified properties.

The remote model call is an external collaborator; it is embedded as a
function parameter of type GenRequest -> Except Unit String, where
Except.error models a thrown transport/API error and Except.ok t models a
response whose text is t (an undefined response text is modelled as the
empty string, which JavaScript treats as falsy exactly like undefined in
the expressions `response.text || fallback`).
-/

/-- A request part, mirroring the `parts` array entries handed to
`ai.models.generateContent`: either a plain text part or an inline binary
attachment (base64 payload plus media type). -/
inductive ReqPart where
  | text (s : String)
  | inlineData (data mimeType : String)
deriving DecidableEq

/-- The request assembled by the service module for one remote call:
model name, system instruction, ordered parts, thinking budget, and the
temperature in tenths (none when the call site sets no temperature). -/
structure GenRequest where
  model : String
  systemInstruction : String
  parts : List ReqPart
  thinkingBudget : Nat
  temperatureTenths : Option Nat
deriving DecidableEq

/-- src/unnamed/part_000 line 8: the model identifier. -/
def GEMINI_MODEL : String := "gemini-3-pro-preview"

/-- src/unnamed/part_000 lines 12-33: the generation system instruction. -/
def SYSTEM_INSTRUCTION : String :=
  "You are an expert AI Engineer and Product Designer specializing in \"bringing artifacts to life\".\nYour goal is to take a user uploaded file—which might be a polished UI design, a messy napkin sketch, a photo of a whiteboard with jumbled notes, or a picture of a real-world object (like a messy desk)—and instantly generate a fully functional, interactive, single-page HTML/JS/CSS application.\n\nCORE DIRECTIVES:\n1. **Analyze & Abstract**: Look at the image.\n    - **Sketches/Wireframes**: Detect buttons, inputs, and layout. Turn them into a modern, clean UI.\n    - **Real-World Photos (Mundane Objects)**: If the user uploads a photo of a desk, a room, or a fruit bowl, DO NOT just try to display it. **Gamify it** or build a **Utility** around it.\n      - *Cluttered Desk* -> Create a \"Clean Up\" game where clicking items (represented by emojis or SVG shapes) clears them, or a Trello-style board.\n      - *Fruit Bowl* -> A nutrition tracker or a still-life painting app.\n    - **Documents/Forms**: specific interactive wizards or dashboards.\n\n2. **NO EXTERNAL IMAGES**:\n    - **CRITICAL**: Do NOT use <img src=\"...\"> with external URLs (like imgur, placeholder.com, or generic internet URLs). They will fail.\n    - **INSTEAD**: Use **CSS shapes**, **inline SVGs**, **Emojis**, or **CSS gradients** to visually represent the elements you see in the input.\n    - If you see a \"coffee cup\" in the input, render a ☕ emoji or draw a cup with CSS. Do not try to load a jpg of a coffee cup.\n\n3. **Make it Interactive**: The output MUST NOT be static. It needs buttons, sliders, drag-and-drop, or dynamic visualizations.\n4. **Self-Contained**: The output must be a single HTML file with embedded CSS (<style>) and JavaScript (<script>). No external dependencies unless absolutely necessary (Tailwind via CDN is allowed).\n5. **Robust & Creative**: If the input is messy or ambiguous, generate a \"best guess\" creative interpretation. Never return an error. Build *something* fun and functional.\n\nRESPONSE FORMAT:\nReturn ONLY the raw HTML code. Do not wrap it in markdown code blocks (```html ... ```). Start immediately with <!DOCTYPE html>."

/-- src/unnamed/part_000 lines 35-43: the refinement system instruction. -/
def REFINE_SYSTEM_INSTRUCTION : String :=
  "You are an expert Frontend Developer.\nYou will be given the full source code of a single-page HTML application and a user instruction to modify it.\n\nYOUR TASK:\n1. Apply the user's requested changes to the code.\n2. Fix any obvious bugs you see while you are there.\n3. Ensure the code remains self-contained (HTML+CSS+JS in one file).\n4. Do NOT output explanations. Output ONLY the fully updated raw HTML code.\n5. Start immediately with <!DOCTYPE html>."

/-- src/unnamed/part_000 lines 45-54: the analysis system instruction. -/
def ANALYSIS_SYSTEM_INSTRUCTION : String :=
  "You are a Senior Staff Software Engineer conducting a code review.\nAnalyze the provided HTML/CSS/JS code.\nFocus on:\n1. Code Quality & Cleanliness\n2. Performance & Efficiency\n3. Modern Best Practices (ES6+, Semantic HTML)\n4. Potential bugs or edge cases\n5. Accessibility\n\nFormat your response as a concise Markdown report. Keep it constructive and helpful."

/-- JavaScript falsiness of a string value: only the empty string is falsy. -/
def strFalsy (s : String) : Bool := s.data.isEmpty

/-- JavaScript truthiness of an optional string parameter: undefined and the
empty string are falsy, every other string is truthy. -/
def strTruthy : Option String → Bool
  | none => false
  | some s => !(strFalsy s)

/-- JavaScript falsiness of a nullable string state value (null or empty). -/
def optFalsy : Option String → Bool
  | none => true
  | some s => strFalsy s

/-- The character class matched by the regular-expression escape \s in
JavaScript (ECMAScript WhiteSpace and LineTerminator sets). -/
def jsWs (c : Char) : Bool :=
  c = ' ' || c = '\t' || c = '\n' || c = '\x0b' || c = '\x0c' || c = '\r' ||
  c.toNat = 0x00A0 || c.toNat = 0x1680 ||
  (0x2000 ≤ c.toNat && c.toNat ≤ 0x200A) ||
  c.toNat = 0x2028 || c.toNat = 0x2029 || c.toNat = 0x202F ||
  c.toNat = 0x205F || c.toNat = 0x3000 || c.toNat = 0xFEFF

/-- JavaScript String.prototype.trim: remove \s characters at both ends. -/
def jsTrim (s : String) : String :=
  String.mk (((s.data.dropWhile jsWs).reverse.dropWhile jsWs).reverse)

/-- Drop list `p` from the front of a list, returning the remainder when `p`
is a prefix and none otherwise. -/
def dropPfx : List Char → List Char → Option (List Char)
  | [], l => some l
  | _ :: _, [] => none
  | a :: as, b :: bs => if a = b then dropPfx as bs else none

/-- One application of `text.replace(/^MARKER\s*/, "")` for a literal marker:
when the marker is a prefix, remove it together with the following maximal
run of \s characters; otherwise leave the text unchanged. -/
def stripOpen (marker : String) (s : List Char) : List Char :=
  match dropPfx marker.data s with
  | some rest => rest.dropWhile jsWs
  | none => s

/-- One application of `text.replace(/MARKER$/, "")` for a literal marker:
when the marker is a suffix, remove it; otherwise leave the text unchanged. -/
def stripClose (marker : String) (s : List Char) : List Char :=
  match dropPfx marker.data.reverse s.reverse with
  | some rest => rest.reverse
  | none => s

/-- src/unnamed/part_000 lines 99 and 127: the response cleanup chain
`text.replace(/^```html\s*/, "").replace(/^```\s*/, "").replace(/```$/, "")`
on the character list of the text. -/
def cleanupChars (s : List Char) : List Char :=
  stripClose "```" (stripOpen "```" (stripOpen "```html" s))

/-- The response cleanup transform shared by bringToLife and refineApp. -/
def cleanupResponse (s : String) : String := String.mk (cleanupChars s.data)

/-- A text is clean when it carries neither a leading nor a trailing
code-fence marker. -/
def cleanText (s : String) : Prop :=
  dropPfx "```".data s.data = none ∧ dropPfx "```".data s.data.reverse = none

instance (s : String) : Decidable (cleanText s) := by
  unfold cleanText; infer_instance

/-- src/unnamed/part_000 line 62: the default instruction used when a file
attachment is present. -/
def defaultFilePrompt : String :=
  "Analyze this image/document. Detect what functionality is implied. If it is a real-world object (like a desk), gamify it (e.g., a cleanup game). Build a fully interactive web app. IMPORTANT: Do NOT use external image URLs. Recreate the visuals using CSS, SVGs, or Emojis."

/-- src/unnamed/part_000 line 96: the fallback markup used when the
generation response text is falsy. -/
def generationFallback : String := "<!-- Failed to generate content -->"

/-- src/unnamed/part_000 line 68: the canned demo request used when no file
is attached and the prompt is empty. -/
def demoRequest : String := "Create a demo app that shows off your capabilities."

/-- src/unnamed/part_000 lines 60-69: the text part assembled by
bringToLife. With a truthy fileBase64 the default file instruction is used,
and the free text is appended when `prompt && prompt.trim()` is truthy;
without an attachment the text is `prompt || demoRequest`. -/
def genTextPart (prompt : String) (fileBase64 : Option String) : String :=
  if strTruthy fileBase64 then
    if !(strFalsy prompt) && !(strFalsy (jsTrim prompt)) then
      defaultFilePrompt ++ "\n\nUSER REQUEST / CONTEXT: " ++ prompt
    else defaultFilePrompt
  else if strFalsy prompt then demoRequest else prompt

/-- src/unnamed/part_000 lines 57-80: the parts array assembled by
bringToLife; the inline attachment part is pushed only when
`fileBase64 && mimeType` is truthy. -/
def bringToLifeParts (prompt : String) (fileBase64 mimeType : Option String) :
    List ReqPart :=
  let withText := [ReqPart.text (genTextPart prompt fileBase64)]
  match fileBase64, mimeType with
  | some d, some m =>
      if !(strFalsy d) && !(strFalsy m) then withText ++ [ReqPart.inlineData d m]
      else withText
  | _, _ => withText

/-- src/unnamed/part_000 lines 83-94: the full generation request. -/
def bringToLifeRequest (prompt : String) (fileBase64 mimeType : Option String) :
    GenRequest :=
  { model := GEMINI_MODEL
    systemInstruction := SYSTEM_INSTRUCTION
    parts := bringToLifeParts prompt fileBase64 mimeType
    thinkingBudget := 32768
    temperatureTenths := some 5 }

/-- src/unnamed/part_000 lines 56-106: bringToLife. A thrown remote error is
rethrown; otherwise the falsy-response fallback is substituted and the
cleanup chain is applied to the resulting text. -/
def bringToLife (remote : GenRequest → Except Unit String) (prompt : String)
    (fileBase64 mimeType : Option String) : Except Unit String :=
  match remote (bringToLifeRequest prompt fileBase64 mimeType) with
  | Except.error e => Except.error e
  | Except.ok t =>
      Except.ok (cleanupResponse (if strFalsy t then generationFallback else t))

/-- src/unnamed/part_000 lines 110-124: the refinement request with its
fixed three text parts and the refine system instruction. -/
def refineRequest (currentHtml instruction : String) : GenRequest :=
  { model := GEMINI_MODEL
    systemInstruction := REFINE_SYSTEM_INSTRUCTION
    parts := [ReqPart.text "Here is the current existing code:",
              ReqPart.text currentHtml,
              ReqPart.text ("\n\nUSER INSTRUCTION: " ++ instruction ++
                "\n\nReturn the full updated HTML file.")]
    thinkingBudget := 8192
    temperatureTenths := some 3 }

/-- src/unnamed/part_000 lines 108-133: refineApp. A thrown remote error is
rethrown; a falsy response text is replaced by currentHtml; the cleanup
chain is then applied to the resulting text. -/
def refineApp (remote : GenRequest → Except Unit String)
    (currentHtml instruction : String) : Except Unit String :=
  match remote (refineRequest currentHtml instruction) with
  | Except.error e => Except.error e
  | Except.ok t =>
      Except.ok (cleanupResponse (if strFalsy t then currentHtml else t))

/-- src/unnamed/part_000 lines 137-150: the analysis request. -/
def analyzeRequest (code : String) : GenRequest :=
  { model := GEMINI_MODEL
    systemInstruction := ANALYSIS_SYSTEM_INSTRUCTION
    parts := [ReqPart.text "Please analyze this code and suggest improvements:",
              ReqPart.text code]
    thinkingBudget := 32768
    temperatureTenths := none }

/-- src/unnamed/part_000 line 155: the literal failure message returned when
the analysis call throws. -/
def analysisFailureMessage : String := "Failed to analyze code. Please try again."

/-- src/unnamed/part_000 line 152: the fixed string returned when the
analysis response text is falsy. -/
def noAnalysisMessage : String := "No analysis generated."

/-- src/unnamed/part_000 lines 135-157: analyzeCode. Always returns a plain
string: the failure message on a thrown remote error, the fixed
no-analysis string on a falsy response, and the response text otherwise.
No cleanup chain is applied here. -/
def analyzeCode (remote : GenRequest → Except Unit String) (code : String) :
    String :=
  match remote (analyzeRequest code) with
  | Except.error _ => analysisFailureMessage
  | Except.ok t => if strFalsy t then noAnalysisMessage else t

/-- Modelled from the spec: the Creation record declared in
src/components/CreationHistory.tsx, which is not among the provided
sources. Spec section 3 gives its fields: display name, generated markup,
and an optional data-URI of the uploaded binary input. -/
structure Creation where
  name : String
  html : String
  originalImage : Option String
deriving DecidableEq

/-- Modelled from the spec: the InteractionController refine transition
held by the App component, which is not among the provided sources. Spec
section 4.4: refine requires an existing Creation; on success the stored
html is replaced (name and originalImage kept); on failure the prior
Creation is left untouched. The remote call itself goes through the
refineApp embedding above, which is translated from the sources. -/
def controllerRefine (remote : GenRequest → Except Unit String)
    (st : Option Creation) (instruction : String) : Option Creation :=
  match st with
  | none => none
  | some c =>
      match refineApp remote c.html instruction with
      | Except.ok newHtml =>
          some { name := c.name, html := newHtml, originalImage := c.originalImage }
      | Except.error _ => some c

/-- The LivePreview component state fields set by its creation-change
effect (src/components/LivePreview.tsx lines 150-186). -/
structure PreviewState where
  showSplitView : Bool
  isAnalyzing : Bool
  analysisResult : Option String
  showAnalysis : Bool
  refinementPrompt : String
  isRefining : Bool
deriving DecidableEq

/-- src/components/LivePreview.tsx lines 174-186: the effect run whenever
the creation prop changes. showSplitView tracks `creation?.originalImage`
truthiness; the memoized analysis result and all other interaction state
are cleared. -/
def creationChangeReset (creation : Option Creation) : PreviewState :=
  { showSplitView :=
      match creation with
      | none => false
      | some c => !(optFalsy c.originalImage)
    isAnalyzing := false
    analysisResult := none
    showAnalysis := false
    refinementPrompt := ""
    isRefining := false }

/-- src/components/LivePreview.tsx lines 202-223: handleToggleAnalysis,
returning the successor state together with the number of remote analyze
calls the invocation performs. With no creation it is a no-op; with the
panel shown it hides the panel; otherwise it shows the panel and, when the
memoized result is absent (null or the empty string, both falsy in the
`!analysisResult` test) and no request is in flight, performs one
analyzeCode call and memoizes the returned string. The catch branch of the
source is unreachable here because the analyzeCode embedding is total. -/
def handleToggleAnalysis (remote : GenRequest → Except Unit String)
    (creation : Option Creation) (s : PreviewState) : PreviewState × Nat :=
  match creation with
  | none => (s, 0)
  | some c =>
      if s.showAnalysis then ({ s with showAnalysis := false }, 0)
      else
        if optFalsy s.analysisResult && !s.isAnalyzing then
          ({ s with showAnalysis := true
                    isAnalyzing := false
                    analysisResult := some (analyzeCode remote c.html) }, 1)
        else ({ s with showAnalysis := true }, 0)

/-- ASCII letters and digits, the class kept by the regular expression
/[^a-z0-9]/gi of handleExport (the i flag makes it case-insensitive). -/
def isAsciiAlnum (c : Char) : Bool :=
  ('a' ≤ c && c ≤ 'z') || ('A' ≤ c && c ≤ 'Z') || ('0' ≤ c && c ≤ '9')

/-- One character of `name.replace(/[^a-z0-9]/gi, "_")`. -/
def sanitizeChar (c : Char) : Char := if isAsciiAlnum c then c else '_'

/-- JavaScript String.prototype.toLowerCase restricted to the characters
that can occur after sanitizeChar (ASCII letters, digits, underscore), on
which it agrees with the ASCII lowercase map. -/
def jsToLowerChar (c : Char) : Char :=
  if 'A' ≤ c && c ≤ 'Z' then Char.ofNat (c.toNat + 32) else c

/-- src/components/LivePreview.tsx line 195: the download file name
`${creation.name.replace(/[^a-z0-9]/gi, "_").toLowerCase()}_artifact.json`. -/
def exportFileName (name : String) : String :=
  String.mk ((name.data.map sanitizeChar).map jsToLowerChar) ++ "_artifact.json"

/-- One hexadecimal digit character. -/
def hexChar (n : Nat) : Char :=
  if n < 10 then Char.ofNat (48 + n) else Char.ofNat (87 + n)

/-- JSON string escaping as performed by JSON.stringify: quote, backslash
and the control characters below 0x20 are escaped, everything else is kept. -/
def jsonEscapeChar (c : Char) : String :=
  if c = '\"' then "\\\""
  else if c = '\\' then "\\\\"
  else if c = '\x08' then "\\b"
  else if c = '\t' then "\\t"
  else if c = '\n' then "\\n"
  else if c = '\x0c' then "\\f"
  else if c = '\r' then "\\r"
  else if c.toNat < 0x20 then
    "\\u00" ++ String.mk [hexChar (c.toNat / 16), hexChar (c.toNat % 16)]
  else String.mk [c]

/-- A JSON string literal for a given value. -/
def jsonQuote (s : String) : String :=
  "\"" ++ String.join (s.data.map jsonEscapeChar) ++ "\""

/-- The member lines of a two-space-indented JSON object, one field per
line, comma-separated, as JSON.stringify(value, null, 2) lays them out. -/
def fieldLines : List (String × String) → String
  | [] => ""
  | [(k, v)] => "  " ++ jsonQuote k ++ ": " ++ jsonQuote v
  | (k, v) :: rest => "  " ++ jsonQuote k ++ ": " ++ jsonQuote v ++ ",\n" ++ fieldLines rest

/-- JSON.stringify(obj, null, 2) for a flat object of string fields. -/
def stringifyFields (fs : List (String × String)) : String :=
  match fs with
  | [] => "\x7b\x7d"
  | _ => "\x7b\n" ++ fieldLines fs ++ "\n\x7d"

/-- The enumerable own string-valued properties of a Creation in insertion
order, as JSON.stringify sees them; an undefined originalImage (the
optional field being absent) contributes no member at all. -/
def creationFields (c : Creation) : List (String × String) :=
  [("name", c.name), ("html", c.html)] ++
    (match c.originalImage with
     | some i => [("originalImage", i)]
     | none => [])

/-- src/components/LivePreview.tsx line 190: the exported file content
JSON.stringify(creation, null, 2). -/
def exportContent (c : Creation) : String :=
  stringifyFields (creationFields c)

/-! ### Helper lemmas about the embedded primitives -/

theorem dropPfx_self_append (p l : List Char) : dropPfx p (p ++ l) = some l := by
  induction p with
  | nil => rfl
  | cons a as ih => simp [dropPfx, ih]

theorem dropPfx_append_split (p q l : List Char) :
    dropPfx (p ++ q) l = (dropPfx p l).bind fun r => dropPfx q r := by
  induction p generalizing l with
  | nil => simp [dropPfx]
  | cons a as ih =>
      cases l with
      | nil => simp [dropPfx]
      | cons b bs =>
          by_cases h : a = b
          · simp [dropPfx, h, ih]
          · simp [dropPfx, h]

theorem dropPfx_cons_none (p : List Char) (c : Char) (l : List Char)
    (hp : p ≠ []) (hc : c ∉ p) : dropPfx p (c :: l) = none := by
  cases p with
  | nil => exact absurd rfl hp
  | cons a as =>
      have hac : ¬ a = c := by
        intro h
        exact hc (by simp [h])
      simp [dropPfx, hac]

theorem stripOpen_html_of_none (l : List Char)
    (h1 : dropPfx "```".data l = none) : stripOpen "```html" l = l := by
  have hsplit : ("```html" : String).data = ("```" : String).data ++ ("html" : String).data := rfl
  have hh : dropPfx ("```html" : String).data l = none := by
    rw [hsplit, dropPfx_append_split, h1]
    rfl
  unfold stripOpen
  rw [hh]

theorem stripOpen_fence_of_none (l : List Char)
    (h1 : dropPfx "```".data l = none) : stripOpen "```" l = l := by
  unfold stripOpen
  rw [h1]

theorem stripClose_fence_of_none (l : List Char)
    (h2 : dropPfx "```".data l.reverse = none) : stripClose "```" l = l := by
  have hrev : ("```" : String).data.reverse = ("```" : String).data := rfl
  unfold stripClose
  rw [hrev, h2]

theorem cleanupChars_of_clean (l : List Char)
    (h1 : dropPfx "```".data l = none)
    (h2 : dropPfx "```".data l.reverse = none) :
    cleanupChars l = l := by
  unfold cleanupChars
  rw [stripOpen_html_of_none l h1, stripOpen_fence_of_none l h1,
    stripClose_fence_of_none l h2]

theorem cleanupResponse_of_clean (s : String) (h : cleanText s) :
    cleanupResponse s = s := by
  obtain ⟨h1, h2⟩ := h
  unfold cleanupResponse
  rw [cleanupChars_of_clean s.data h1 h2]

theorem analyzeCode_not_falsy (remote : GenRequest → Except Unit String)
    (code : String) : strFalsy (analyzeCode remote code) = false := by
  unfold analyzeCode
  cases remote (analyzeRequest code) with
  | error e => rfl
  | ok t =>
      by_cases h : strFalsy t = true
      · simp [h]
        rfl
      · simp [h]

theorem strFalsy_iff (s : String) : strFalsy s = true ↔ s = "" := by
  unfold strFalsy
  rw [List.isEmpty_iff]
  constructor
  · intro h
    exact String.ext h
  · intro h
    rw [h]

theorem strFalsy_eq_false (s : String) (h : s ≠ "") : strFalsy s = false := by
  cases hsb : strFalsy s with
  | false => rfl
  | true => exact absurd ((strFalsy_iff s).1 hsb) h

/-! ### Claim theorems -/

/-- C3 counterexample: the cleanup transform does not return the inner text
verbatim for every language tag and every inner text. With tag css the tag
word survives in the output, and with tag html a leading space of the inner
text is eaten by the \s* of the opening-fence pattern. -/
theorem c3_cleanup_counterexample :
    cleanupResponse "```css\nx\n```" = "css\nx\n" ∧ ("css\nx\n" : String) ≠ "\nx\n" ∧
    cleanupResponse "```html  hi```" = "hi" ∧ ("hi" : String) ≠ "  hi" :=
  ⟨by decide, by decide, by decide, by decide⟩

/-- C3 (corrected): the only language tag the cleanup strips is html. For an
inner text whose first character is neither a fence character nor \s
whitespace, cleaning an html-fenced response returns the inner text
verbatim, and a text with neither a leading nor a trailing fence marker is
left untouched. -/
theorem c3_cleanup_amended :
    (∀ (t : String) (c : Char), t.data.head? = some c →
        c ∉ ("```" : String).data → jsWs c = false →
        cleanupResponse ("```html" ++ t ++ "```") = t) ∧
    (∀ s : String, cleanText s → cleanupResponse s = s) := by
  constructor
  · intro t c hhead hmem hws
    cases hd : t.data with
    | nil =>
        rw [hd] at hhead
        exact absurd hhead (by simp)
    | cons c0 cs =>
        rw [hd] at hhead
        have hc0 : c0 = c := by simpa using hhead
        subst hc0
        apply String.ext
        show cleanupChars ((("```html" : String) ++ t ++ "```").data) = t.data
        rw [String.data_append, String.data_append, hd]
        have hws' : ¬ jsWs c0 = true := by simp [hws]
        have e1 : stripOpen "```html"
            ((("```html" : String).data ++ (c0 :: cs)) ++ ("```" : String).data) =
            c0 :: (cs ++ ("```" : String).data) := by
          unfold stripOpen
          rw [List.append_assoc, dropPfx_self_append]
          simp [List.cons_append, List.dropWhile_cons_of_neg hws']
        have e2 : stripOpen "```" (c0 :: (cs ++ ("```" : String).data)) =
            c0 :: (cs ++ ("```" : String).data) :=
          stripOpen_fence_of_none _
            (dropPfx_cons_none ("```" : String).data c0 _ (by decide) hmem)
        have e3 : stripClose "```" (c0 :: (cs ++ ("```" : String).data)) = c0 :: cs := by
          unfold stripClose
          have hsh : (c0 :: (cs ++ ("```" : String).data)).reverse =
              ("```" : String).data ++ (c0 :: cs).reverse := by
            rw [← List.cons_append, List.reverse_append]
            rfl
          rw [hsh, show (("```" : String).data.reverse) = ("```" : String).data from rfl,
            dropPfx_self_append]
          simp
        unfold cleanupChars
        rw [e1, e2, e3]
  · intro s h
    exact cleanupResponse_of_clean s h

/-- C3 witness: a concrete html-fenced response is cleaned to its inner
text. -/
theorem c3_cleanup_witness :
    cleanupResponse ("```html" ++ "<p>x</p>" ++ "```") = "<p>x</p>" :=
  c3_cleanup_amended.1 "<p>x</p>" '<' (by decide) (by decide) (by decide)

/-- C9: on already-clean text (no leading or trailing fence marker) the
cleanup transform is the identity, hence applying it twice agrees with
applying it once. -/
theorem c9_cleanup_idempotent (s : String) (h : cleanText s) :
    cleanupResponse (cleanupResponse s) = cleanupResponse s := by
  simp [cleanupResponse_of_clean s h]

/-- C9 witness at a concrete clean text. -/
theorem c9_cleanup_witness :
    cleanupResponse (cleanupResponse "<p>hi</p>") = cleanupResponse "<p>hi</p>" :=
  c9_cleanup_idempotent "<p>hi</p>" (by decide)

/-- C1 counterexample: with an empty remote response, refineApp does not
return the original currentHtml unchanged, and it can return the empty
string: the cleanup chain runs on the substituted currentHtml and strips
its fence characters away entirely. -/
theorem c1_refine_counterexample :
    refineApp (fun _ => Except.ok "") "``````" "i" = Except.ok "" ∧
    ("" : String) ≠ "``````" :=
  ⟨rfl, by decide⟩

/-- C1 (corrected): on an empty remote response refineApp returns the
cleanup of currentHtml, which equals currentHtml whenever currentHtml
carries no leading or trailing fence marker (so the returned value is not
the original verbatim in general, and may even be empty); on remote
failure refineApp rethrows the error and the caller leaves the stored
Creation unmodified (caller transition modelled from the spec, since the
App component is not among the provided sources). -/
theorem c1_refine_amended :
    (∀ (remote : GenRequest → Except Unit String) (cur instr : String),
        remote (refineRequest cur instr) = Except.ok "" →
        refineApp remote cur instr = Except.ok (cleanupResponse cur)) ∧
    (∀ (remote : GenRequest → Except Unit String) (cur instr : String),
        remote (refineRequest cur instr) = Except.ok "" → cleanText cur →
        refineApp remote cur instr = Except.ok cur) ∧
    (∀ (remote : GenRequest → Except Unit String) (cur instr : String) (e : Unit),
        remote (refineRequest cur instr) = Except.error e →
        refineApp remote cur instr = Except.error e) ∧
    (∀ (remote : GenRequest → Except Unit String) (c : Creation) (instr : String) (e : Unit),
        remote (refineRequest c.html instr) = Except.error e →
        controllerRefine remote (some c) instr = some c) := by
  refine ⟨?_, ?_, ?_, ?_⟩
  · intro remote cur instr h
    unfold refineApp
    rw [h]
    rfl
  · intro remote cur instr h hclean
    unfold refineApp
    rw [h]
    exact congrArg Except.ok (cleanupResponse_of_clean cur hclean)
  · intro remote cur instr e h
    unfold refineApp
    rw [h]
  · intro remote c instr e h
    have h3 : refineApp remote c.html instr = Except.error e := by
      unfold refineApp
      rw [h]
    simp only [controllerRefine]
    rw [h3]

/-- C1 witness: empty response with clean currentHtml returns it unchanged. -/
theorem c1_refine_witness :
    refineApp (fun _ => Except.ok "") "<p>ok</p>" "i" = Except.ok "<p>ok</p>" :=
  c1_refine_amended.2.1 (fun _ => Except.ok "") "<p>ok</p>" "i" rfl (by decide)

/-- C2 counterexample: bringToLife can return the empty string, because the
cleanup chain runs after the empty-response fallback substitution and can
strip a fence-only response down to nothing. -/
theorem c2_generate_counterexample :
    bringToLife (fun _ => Except.ok "``````") "" none none = Except.ok "" := rfl

/-- C2 (corrected): when the remote response text is empty, bringToLife
returns the literal fallback placeholder (never an empty result in that
case); when the response text is non-empty, it returns the cleanup of the
response, which can itself be empty when the response consists only of
fence markers. -/
theorem c2_generate_amended :
    (∀ (remote : GenRequest → Except Unit String) (prompt : String)
        (fb mt : Option String),
        remote (bringToLifeRequest prompt fb mt) = Except.ok "" →
        bringToLife remote prompt fb mt = Except.ok generationFallback) ∧
    (∀ (remote : GenRequest → Except Unit String) (prompt : String)
        (fb mt : Option String) (t : String),
        remote (bringToLifeRequest prompt fb mt) = Except.ok t →
        strFalsy t = false →
        bringToLife remote prompt fb mt = Except.ok (cleanupResponse t)) := by
  constructor
  · intro remote prompt fb mt h
    unfold bringToLife
    rw [h]
    exact congrArg Except.ok (by decide)
  · intro remote prompt fb mt t h ht
    unfold bringToLife
    rw [h]
    simp [ht]

/-- C2 witness: an empty remote response yields the fallback placeholder. -/
theorem c2_generate_witness :
    bringToLife (fun _ => Except.ok "") "p" none none = Except.ok generationFallback :=
  c2_generate_amended.1 (fun _ => Except.ok "") "p" none none rfl

/-- C5: with a truthy attachment payload the text part is the default
image-analysis instruction, with the free text appended only when it is
non-empty; without an attachment the free text is the whole instruction,
an empty prompt being replaced by the canned demo request; and the
scenario prompt equal to the empty string with a file present sends the
bare default instruction plus the inline payload and media type, under the
generation system instruction. -/
theorem c5_generate_prompt_building (prompt b m : String) :
    (∀ fb : Option String, strTruthy fb = true →
        genTextPart prompt fb = defaultFilePrompt ∨
        (genTextPart prompt fb =
            defaultFilePrompt ++ "\n\nUSER REQUEST / CONTEXT: " ++ prompt ∧
          prompt ≠ "")) ∧
    (∀ fb : Option String, strTruthy fb = false →
        genTextPart prompt fb = (if prompt = "" then demoRequest else prompt)) ∧
    (b ≠ "" → m ≠ "" →
        bringToLifeParts "" (some b) (some m) =
          [ReqPart.text defaultFilePrompt, ReqPart.inlineData b m] ∧
        (bringToLifeRequest "" (some b) (some m)).systemInstruction =
          SYSTEM_INSTRUCTION) := by
  refine ⟨?_, ?_, ?_⟩
  · intro fb hfb
    unfold genTextPart
    rw [hfb]
    by_cases hc : (!(strFalsy prompt) && !(strFalsy (jsTrim prompt))) = true
    · right
      constructor
      · simp [hc]
      · intro hp
        rw [Bool.and_eq_true] at hc
        have h1 := hc.1
        rw [hp] at h1
        exact absurd h1 (by decide)
    · left
      simp [hc]
  · intro fb hfb
    unfold genTextPart
    rw [hfb]
    by_cases hp : prompt = ""
    · subst hp
      simp [strFalsy]
    · simp [strFalsy_eq_false prompt hp, hp]
  · intro hb hm
    have h0 : strFalsy "" = true := rfl
    constructor
    · simp [bringToLifeParts, genTextPart, strTruthy, h0,
        strFalsy_eq_false b hb, strFalsy_eq_false m hm]
    · rfl

/-- C5 witness: the scenario with an empty prompt and a concrete file. -/
theorem c5_generate_witness :
    bringToLifeParts "" (some "AAAA") (some "image/png") =
      [ReqPart.text defaultFilePrompt, ReqPart.inlineData "AAAA" "image/png"] :=
  ((c5_generate_prompt_building "" "AAAA" "image/png").2.2 (by decide) (by decide)).1

/-- C6: the refine request carries the fixed refinement system instruction
and exactly three text parts: the fixed preamble, the full current markup
verbatim, and the wrapped user instruction; and on a successful refine the
stored Creation keeps its name and originalImage while only html is
replaced (store transition modelled from the spec, the App component being
absent from the provided sources). -/
theorem c6_refine_request (cur instr : String) :
    (refineRequest cur instr).systemInstruction = REFINE_SYSTEM_INSTRUCTION ∧
    (refineRequest cur instr).parts =
      [ReqPart.text "Here is the current existing code:",
       ReqPart.text cur,
       ReqPart.text ("\n\nUSER INSTRUCTION: " ++ instr ++
         "\n\nReturn the full updated HTML file.")] ∧
    (∀ (remote : GenRequest → Except Unit String) (c : Creation) (newHtml : String),
        refineApp remote c.html instr = Except.ok newHtml →
        controllerRefine remote (some c) instr =
          some { name := c.name, html := newHtml, originalImage := c.originalImage }) := by
  refine ⟨rfl, rfl, ?_⟩
  intro remote c newHtml h
  simp only [controllerRefine]
  rw [h]

/-- C6 witness: a successful refine replaces html and keeps name and
originalImage. -/
theorem c6_refine_witness :
    controllerRefine (fun _ => Except.ok "<p>") (some ⟨"n", "<a>", none⟩) "i" =
      some ⟨"n", cleanupResponse "<p>", none⟩ :=
  (c6_refine_request "<a>" "i").2.2 (fun _ => Except.ok "<p>")
    ⟨"n", "<a>", none⟩ (cleanupResponse "<p>") rfl

/-- C8: analyzeCode is total and never returns the empty string; a thrown
remote error produces the literal failure message, and an empty remote
response produces the fixed no-analysis string. -/
theorem c8_analyze_total (remote : GenRequest → Except Unit String) (code : String) :
    analyzeCode remote code ≠ "" ∧
    (∀ e : Unit, remote (analyzeRequest code) = Except.error e →
        analyzeCode remote code = analysisFailureMessage) ∧
    (remote (analyzeRequest code) = Except.ok "" →
        analyzeCode remote code = noAnalysisMessage) := by
  refine ⟨?_, ?_, ?_⟩
  · intro h
    have hne := analyzeCode_not_falsy remote code
    rw [h] at hne
    exact absurd hne (by decide)
  · intro e h
    unfold analyzeCode
    rw [h]
  · intro h
    unfold analyzeCode
    rw [h]
    rfl

/-- C8 witness: a thrown remote error yields the failure message. -/
theorem c8_analyze_witness :
    analyzeCode (fun _ => Except.error ()) "<p>" = analysisFailureMessage :=
  (c8_analyze_total (fun _ => Except.error ()) "<p>").2.1 () rfl

/-- C10: with a truthy base64 payload and no media type, the request parts
consist of the single default-instruction-based text part and no inline
attachment; and an inline attachment part occurs in the parts only when
both the payload and the media type are truthy. -/
theorem c10_attachment_requires_both (prompt b : String) (hb : b ≠ "") :
    bringToLifeParts prompt (some b) none = [ReqPart.text (genTextPart prompt (some b))] ∧
    (genTextPart prompt (some b) = defaultFilePrompt ∨
      genTextPart prompt (some b) =
        defaultFilePrompt ++ "\n\nUSER REQUEST / CONTEXT: " ++ prompt) ∧
    (∀ (fb mt : Option String) (d m : String),
        ReqPart.inlineData d m ∈ bringToLifeParts prompt fb mt →
        strTruthy fb = true ∧ strTruthy mt = true) := by
  refine ⟨rfl, ?_, ?_⟩
  · have htrue : strTruthy (some b) = true := by
      simp [strTruthy, strFalsy_eq_false b hb]
    unfold genTextPart
    rw [htrue]
    by_cases hc : (!(strFalsy prompt) && !(strFalsy (jsTrim prompt))) = true
    · right
      simp [hc]
    · left
      simp [hc]
  · intro fb mt d m hmem
    cases fb with
    | none => simp [bringToLifeParts] at hmem
    | some d0 =>
        cases mt with
        | none => simp [bringToLifeParts] at hmem
        | some m0 =>
            by_cases hcond : (!(strFalsy d0) && !(strFalsy m0)) = true
            · rw [Bool.and_eq_true] at hcond
              constructor
              · simpa [strTruthy] using hcond.1
              · simpa [strTruthy] using hcond.2
            · simp [bringToLifeParts, hcond] at hmem

/-- C10 witness: payload without media type yields a single text part. -/
theorem c10_attachment_witness :
    bringToLifeParts "hi" (some "AAAA") none =
      [ReqPart.text (genTextPart "hi" (some "AAAA"))] :=
  (c10_attachment_requires_both "hi" "AAAA" (by decide)).1

/-- C4: from a fresh preview state, the first analysis request performs
exactly one remote analyze call and memoizes its result (including a
memoized failure message, since the memoized value is whatever string
analyzeCode returned); the next invocation merely hides the panel with no
call, and a further request returns the memoized report with no call; and
a creation change clears the memoized report, after which the next request
performs a new remote call. -/
theorem c4_analysis_memoized (remote : GenRequest → Except Unit String)
    (c c2 : Creation) (s0 : PreviewState)
    (h1 : s0.analysisResult = none) (h2 : s0.isAnalyzing = false)
    (h3 : s0.showAnalysis = false) :
    ((handleToggleAnalysis remote (some c) s0).2 = 1 ∧
     (handleToggleAnalysis remote (some c) s0).1.analysisResult =
       some (analyzeCode remote c.html) ∧
     (handleToggleAnalysis remote (some c)
        (handleToggleAnalysis remote (some c) s0).1).2 = 0 ∧
     (handleToggleAnalysis remote (some c)
        (handleToggleAnalysis remote (some c)
          (handleToggleAnalysis remote (some c) s0).1).1).2 = 0 ∧
     (handleToggleAnalysis remote (some c)
        (handleToggleAnalysis remote (some c)
          (handleToggleAnalysis remote (some c) s0).1).1).1.analysisResult =
       some (analyzeCode remote c.html)) ∧
    ((creationChangeReset (some c2)).analysisResult = none ∧
     (handleToggleAnalysis remote (some c2) (creationChangeReset (some c2))).2 = 1) := by
  have e1 : handleToggleAnalysis remote (some c) s0 =
      ({ s0 with
          showAnalysis := true
          isAnalyzing := false
          analysisResult := some (analyzeCode remote c.html) }, 1) := by
    simp [handleToggleAnalysis, h1, h2, h3, optFalsy]
  have e2 : handleToggleAnalysis remote (some c)
      ({ s0 with
          showAnalysis := true
          isAnalyzing := false
          analysisResult := some (analyzeCode remote c.html) } : PreviewState) =
      ({ s0 with
          showAnalysis := false
          isAnalyzing := false
          analysisResult := some (analyzeCode remote c.html) }, 0) := by
    simp [handleToggleAnalysis]
  have e3 : handleToggleAnalysis remote (some c)
      ({ s0 with
          showAnalysis := false
          isAnalyzing := false
          analysisResult := some (analyzeCode remote c.html) } : PreviewState) =
      ({ s0 with
          showAnalysis := true
          isAnalyzing := false
          analysisResult := some (analyzeCode remote c.html) }, 0) := by
    simp [handleToggleAnalysis, optFalsy, analyzeCode_not_falsy]
  refine ⟨⟨?_, ?_, ?_, ?_, ?_⟩, ?_, ?_⟩
  · rw [e1]
  · rw [e1]
  · rw [e1, e2]
  · rw [e1, e2, e3]
  · rw [e1, e2, e3]
  · rfl
  · simp [handleToggleAnalysis, creationChangeReset, optFalsy]

/-- C4 witness at a concrete remote, creation and fresh state. -/
theorem c4_analysis_witness :
    (handleToggleAnalysis (fun _ => Except.ok "report") (some ⟨"n", "<p>", none⟩)
      ⟨false, false, none, false, "", false⟩).2 = 1 :=
  (c4_analysis_memoized (fun _ => Except.ok "report") ⟨"n", "<p>", none⟩
    ⟨"n", "<p>", none⟩ ⟨false, false, none, false, "", false⟩ rfl rfl rfl).1.1

/-- C7 counterexample: a Creation without an originalImage is exported as
JSON with only the name and html members, so the content does not always
carry exactly the three claimed keys. -/
theorem c7_export_counterexample :
    exportContent ⟨"a", "b", none⟩ = "\x7b\n  \"name\": \"a\",\n  \"html\": \"b\"\n\x7d" ∧
    (creationFields ⟨"a", "b", none⟩).map Prod.fst ≠ ["name", "html", "originalImage"] :=
  ⟨by decide, by decide⟩

/-- C7 (corrected): the export content is the indented JSON.stringify
serialization whose members are name and html, plus originalImage exactly
when the Creation has one; the file name is the name with every
non-alphanumeric character replaced by an underscore, lowercased and
suffixed _artifact.json; and the Coffee Shop!! scenario produces
coffee_shop___artifact.json with all three keys present. -/
theorem c7_export_amended :
    (∀ (c : Creation) (img : String), c.originalImage = some img →
        (creationFields c).map Prod.fst = ["name", "html", "originalImage"]) ∧
    (∀ c : Creation, c.originalImage = none →
        (creationFields c).map Prod.fst = ["name", "html"]) ∧
    (∀ nm : String, exportFileName nm =
        String.mk (nm.data.map fun ch => jsToLowerChar (sanitizeChar ch)) ++
          "_artifact.json") ∧
    exportContent ⟨"Coffee Shop!!", "<h1>Menu</h1>", some "data:AA"⟩ =
      "\x7b\n  \"name\": \"Coffee Shop!!\",\n  \"html\": \"<h1>Menu</h1>\",\n  \"originalImage\": \"data:AA\"\n\x7d" ∧
    exportFileName "Coffee Shop!!" = "coffee_shop___artifact.json" := by
  refine ⟨?_, ?_, ?_, by decide, by decide⟩
  · intro c img h
    simp [creationFields, h]
  · intro c h
    simp [creationFields, h]
  · intro nm
    unfold exportFileName
    rw [List.map_map]
    rfl

/-- C7 witness: a Creation carrying an originalImage exports all three
keys. -/
theorem c7_export_witness :
    (creationFields ⟨"n", "<p>", some "img"⟩).map Prod.fst =
      ["name", "html", "originalImage"] :=
  c7_export_amended.1 ⟨"n", "<p>", some "img"⟩ "img" rfl
